import Mathlib

/-
Formal model of the FlashFirm backend (src/server.js).

The server exposes a Solana balance query (`GET /api/check-balance/:publicKey`,
handler `getBalance`) and a transfer submission (`POST /auth/send`, handler
calling `sendSolTransaction`).  The model embeds those handlers as pure
functions over an explicit RPC environment (the outcomes the remote node would
deliver to this request) and records the network interactions the handler
performs as an event trace.
-/

namespace FlashFirm

/-- JavaScript values as they occur in request bodies: `undefined`, `null`,
booleans, numbers (`nan` is the non-numeric number NaN), strings, and arrays
of naturals (the shape a JSON-supplied secret-key byte array has). -/
inductive JsValue where
| undefined
| nullv
| bool (b : Bool)
| num (q : ℚ)
| nan
| str (s : String)
| arr (ns : List ℕ)
deriving DecidableEq

/-- JavaScript truthiness, as tested by `if (!x)`: `undefined`, `null`,
`false`, `0`, `NaN` and `""` are falsy; every other value is truthy. -/
def truthy : JsValue → Bool
| .undefined => false
| .nullv => false
| .bool b => b
| .num q => if q = 0 then false else true
| .nan => false
| .str s => if s = "" then false else true
| .arr _ => true

/-- JavaScript ToNumber coercion as it feeds `amount * 1e9`; `none` stands for
NaN.  `Number(null) = 0`, booleans map to 0/1, a singleton array to its
element, other arrays to 0 or NaN.  String coercion is modelled for plain
digit strings (other numeric string shapes do not occur in the endpoints'
inputs considered here). -/
def toNumber : JsValue → Option ℚ
| .undefined => none
| .nullv => some 0
| .bool b => some (if b then 1 else 0)
| .num q => some q
| .nan => none
| .str s =>
  if s ≠ "" ∧ s.data.all Char.isDigit then
    some ((s.data.foldl (fun a c => a * 10 + (c.toNat - 48)) 0 : ℕ) : ℚ)
  else none
| .arr ns =>
  match ns with
  | [] => some 0
  | [n] => some ((n : ℕ) : ℚ)
  | _ => none

/-- NaN-propagating multiplication for `amount * 1e9` (`none` is NaN). -/
def jsMul (o : Option ℚ) (c : ℚ) : Option ℚ := o.map (fun q => q * c)

/-- `Uint8Array.from(v)`: an array keeps its entries reduced mod 256; a string
is iterated character by character, each coerced through `Number` (a digit
character gives its value, anything else NaN, stored as 0); non-iterable
primitives have no length and give the empty array. -/
def uint8ArrayFrom : JsValue → List ℕ
| .arr ns => ns.map (fun n => n % 256)
| .str s => s.data.map (fun c => if c.isDigit then (c.toNat - 48) % 256 else 0)
| _ => []

/-- The base58 alphabet used by Solana addresses. -/
def base58Alphabet : List Char :=
  "123456789ABCDEFGHJKLMNPQRSTUVWXYZabcdefghijkmnopqrstuvwxyz".data

/-- The value of one base58 digit, `none` for a character outside the
alphabet. -/
def base58DigitVal (c : Char) : Option ℕ := base58Alphabet.indexOf? c

/-- The number of leading '1' characters (each decodes to one leading zero
byte). -/
def leadingOnes : List Char → ℕ
| [] => 0
| c :: cs => if c = '1' then leadingOnes cs + 1 else 0

/-- The natural number a base58 digit string denotes. -/
def b58Nat (cs : List Char) : ℕ :=
  cs.foldl (fun acc c => acc * 58 + ((base58DigitVal c).getD 0)) 0

/-- Big-endian byte expansion; the first argument is fuel (any fuel at least
the byte length of the number gives the full expansion, and `natBytesBE`
passes the number itself, which suffices). -/
def natBytesBEAux : ℕ → ℕ → List ℕ
| 0, _ => []
| _ + 1, 0 => []
| fuel + 1, n + 1 => natBytesBEAux fuel ((n + 1) / 256) ++ [(n + 1) % 256]

/-- Big-endian bytes of a natural number; `natBytesBE 0 = []`. -/
def natBytesBE (n : ℕ) : List ℕ := natBytesBEAux n n

/-- `bs58.decode`: `none` when some character is outside the alphabet (the
library throws), otherwise one zero byte per leading '1' followed by the
big-endian bytes of the value. -/
def bs58Decode (s : String) : Option (List ℕ) :=
  if s.data.all (fun c => (base58DigitVal c).isSome) then
    some (List.replicate (leadingOnes s.data) 0 ++ natBytesBE (b58Nat s.data))
  else none

/-- Error classification recorded by the model.  A JavaScript `Error` carries
only a message; the `kind` field records which model operation created the
error (`generic` for errors created by `new Error` in the handlers'
catch blocks). -/
inductive ErrKind where
| invalidKeyMaterial
| invalidAddress
| rpc
| generic
deriving DecidableEq

/-- A thrown JavaScript error: its origin kind and its `message`. -/
structure JsError where
  kind : ErrKind
  message : String
deriving DecidableEq

/-- `new PublicKey(value)`: a string is base58-decoded and must give exactly
32 bytes; other value shapes are rejected (the endpoints only pass strings). -/
def newPublicKey : JsValue → Except JsError (List ℕ)
| .str s =>
  match bs58Decode s with
  | some bs =>
    if bs.length = 32 then .ok bs
    else .error ⟨.invalidAddress, "Invalid public key input"⟩
  | none => .error ⟨.invalidAddress, "Non-base58 character"⟩
| _ => .error ⟨.invalidAddress, "Invalid public key input"⟩

/-- A Solana keypair as the code uses it: only its public key is consulted. -/
structure Keypair where
  publicKey : List ℕ
deriving DecidableEq

/-- `Keypair.fromSecretKey(bytes)`: requires exactly 64 bytes (ed25519 secret
key layout, seed followed by public key); the public key is the trailing
32 bytes.  A wrong length throws before anything else happens. -/
def Keypair.fromSecretKey (bs : List ℕ) : Except JsError Keypair :=
  if bs.length = 64 then .ok ⟨bs.drop 32⟩
  else .error ⟨.invalidKeyMaterial, "bad secret key size"⟩

/-- The transaction the handler builds: one SystemProgram.transfer instruction
plus the recency and fee-payer fields set afterwards (`none` before they are
set; `lamports` is `none` when the amount coerced to NaN). -/
structure Transaction where
  fromPubkey : List ℕ
  toPubkey : List ℕ
  lamports : Option ℚ
  recentBlockhash : Option String
  feePayer : Option (List ℕ)
deriving DecidableEq

instance instDecidableEqExcept {ε α : Type} [DecidableEq ε] [DecidableEq α] :
    DecidableEq (Except ε α)
| .error e, .error f =>
  if h : e = f then isTrue (h ▸ rfl) else isFalse (fun hc => h (Except.error.inj hc))
| .ok x, .ok y =>
  if h : x = y then isTrue (h ▸ rfl) else isFalse (fun hc => h (Except.ok.inj hc))
| .error _, .ok _ => isFalse (fun hc => Except.noConfusion hc)
| .ok _, .error _ => isFalse (fun hc => Except.noConfusion hc)

/-- How a remote RPC call can fail, with the message the thrown error
carries. -/
inductive RpcFailure where
| submissionRejected (msg : String)
| confirmationTimeout (msg : String)
| upstreamUnavailable (msg : String)
deriving DecidableEq

/-- The message of the error object the failing RPC call throws. -/
def RpcFailure.message : RpcFailure → String
| .submissionRejected m => m
| .confirmationTimeout m => m
| .upstreamUnavailable m => m

/-- The outcomes the remote node delivers to this request: the latest
blockhash, the submission outcome (a signature string on success), the
confirmation outcome, and the balance in lamports.  Each handler invocation
performs each call at most once, so one outcome per call suffices. -/
structure RpcEnv where
  latestBlockhash : Except RpcFailure String
  sendOutcome : Except RpcFailure String
  confirmOutcome : Except RpcFailure Unit
  balanceOutcome : Except RpcFailure ℕ
deriving DecidableEq

/-- The observable interactions a handler performs, in order.  `newConnection`
is the `Connection` constructor (no network round-trip); the others are RPC
round-trips. -/
inductive Ev where
| newConnection (url : String) (commitment : Option String)
| getLatestBlockhash
| sendTransaction (tx : Transaction)
| confirmTransaction (sig : String) (commitment : String)
| getBalance (address : String)
deriving DecidableEq

/-- Which events are network round-trips. -/
def Ev.isNetwork : Ev → Bool
| .newConnection _ _ => false
| _ => true

/-- `process.env`, a partial map from variable name to value. -/
def EnvMap := String → Option String

/-- `process.env.K || dflt`: the default applies when the variable is unset or
set to the empty string (JavaScript `||` tests falsiness). -/
def envOr (cfg : EnvMap) (k dflt : String) : String :=
  match cfg k with
  | some s => if s = "" then dflt else s
  | none => dflt

/-- The fallback RPC endpoint hardcoded in the source. -/
def defaultRpcUrl : String := "https://api.mainnet-beta.solana.com"

/-- The catch block of `sendSolTransaction`:
`throw new Error('Transaction failed: ' + error.message)` — a fresh generic
error; the original error's identity survives only in the message text. -/
def txWrap (e : JsError) : JsError := ⟨.generic, "Transaction failed: " ++ e.message⟩

/-- What a `sendSolTransaction` invocation produces: its returned value or
thrown error, and the events it performed. -/
structure SendResult where
  result : Except JsError String
  events : List Ev
deriving DecidableEq

/-- `sendSolTransaction(senderAddress, senderPrivateKey, recipientAddress,
amount)` from src/server.js, step for step: reconstruct the keypair from the
secret bytes, open a `Connection` with commitment `'confirmed'`, parse the
recipient, build the transfer with `lamports = amount * 1e9`, fetch the latest
blockhash and set it with the fee payer, submit, confirm at `'confirmed'`,
return the signature; any thrown error is wrapped by the catch block.  The
`senderAddress` parameter is received but never read by the body. -/
def sendSolTransaction (env : RpcEnv) (cfg : EnvMap)
    (senderAddress senderPrivateKey recipientAddress amount : JsValue) : SendResult :=
  match Keypair.fromSecretKey (uint8ArrayFrom senderPrivateKey) with
  | .error e => ⟨.error (txWrap e), []⟩
  | .ok senderKeypair =>
    let url := envOr cfg "SOLANA_RPC_URL" defaultRpcUrl
    let ev0 : List Ev := [Ev.newConnection url (some "confirmed")]
    match newPublicKey recipientAddress with
    | .error e => ⟨.error (txWrap e), ev0⟩
    | .ok recipientPublicKey =>
      let lamports := jsMul (toNumber amount) 1000000000
      let ev1 := ev0 ++ [Ev.getLatestBlockhash]
      match env.latestBlockhash with
      | .error f => ⟨.error (txWrap ⟨.rpc, f.message⟩), ev1⟩
      | .ok blockhash =>
        let tx : Transaction :=
          ⟨senderKeypair.publicKey, recipientPublicKey, lamports,
           some blockhash, some senderKeypair.publicKey⟩
        let ev2 := ev1 ++ [Ev.sendTransaction tx]
        match env.sendOutcome with
        | .error f => ⟨.error (txWrap ⟨.rpc, f.message⟩), ev2⟩
        | .ok signature =>
          let ev3 := ev2 ++ [Ev.confirmTransaction signature "confirmed"]
          match env.confirmOutcome with
          | .error f => ⟨.error (txWrap ⟨.rpc, f.message⟩), ev3⟩
          | .ok _ => ⟨.ok signature, ev3⟩

/-- `getBalance(publicKey)` from src/server.js: open a `Connection` (no
commitment argument), parse the address, query the lamport balance, divide by
1e9; a thrown error is logged and rethrown unchanged. -/
def getBalance (env : RpcEnv) (cfg : EnvMap) (publicKey : String) :
    Except JsError ℚ × List Ev :=
  let url := envOr cfg "SOLANA_RPC_URL" defaultRpcUrl
  let ev0 : List Ev := [Ev.newConnection url none]
  match newPublicKey (.str publicKey) with
  | .error e => (.error e, ev0)
  | .ok _ =>
    let ev1 := ev0 ++ [Ev.getBalance publicKey]
    match env.balanceOutcome with
    | .error f => (.error ⟨.rpc, f.message⟩, ev1)
    | .ok balanceInLamports => (.ok ((balanceInLamports : ℚ) / 1000000000), ev1)

/-- The JSON response a route handler sends: HTTP status and the optional
fields the two handlers populate. -/
structure HttpResponse where
  status : ℕ
  error : Option String
  message : Option String
  details : Option String
  success : Option Bool
  signature : Option String
  balance : Option ℚ
deriving DecidableEq

/-- An inbound request to the check-balance route: the bearer token the client
did (or did not) present, and the `:publicKey` path parameter.  The route is
registered with no authentication middleware, so the handler never consults
the token. -/
structure Request where
  authorization : Option String
  paramPublicKey : String
deriving DecidableEq

/-- `app.get('/api/check-balance/:publicKey')`: call `getBalance` and answer
`{balance}` or a 500 `Failed to retrieve balance`. -/
def handleApiCheckBalance (env : RpcEnv) (cfg : EnvMap) (req : Request) :
    HttpResponse × List Ev :=
  let r := getBalance env cfg req.paramPublicKey
  match r.1 with
  | .ok b => (⟨200, none, none, none, none, none, some b⟩, r.2)
  | .error _ => (⟨500, some "Failed to retrieve balance", none, none, none, none, none⟩, r.2)

/-- The body of a `POST /auth/send` request: each field is present with a
value or absent (destructuring an absent field yields `undefined`). -/
structure SendBody where
  senderAddress : Option JsValue
  senderPrivateKey : Option JsValue
  recipientAddress : Option JsValue
  amount : Option JsValue
deriving DecidableEq

/-- Destructuring `const { f } = req.body`: an absent field is `undefined`. -/
def bodyGet (o : Option JsValue) : JsValue := o.getD .undefined

/-- `app.post('/auth/send')` from src/server.js: if any of the four fields is
falsy, answer 400 `Missing required fields` without calling
`sendSolTransaction`; otherwise run it and answer 200 with the signature or
500 with the wrapped error's message. -/
def handleAuthSend (env : RpcEnv) (cfg : EnvMap) (body : SendBody) :
    HttpResponse × List Ev :=
  let sa := bodyGet body.senderAddress
  let spk := bodyGet body.senderPrivateKey
  let ra := bodyGet body.recipientAddress
  let am := bodyGet body.amount
  if !truthy sa || !truthy spk || !truthy ra || !truthy am then
    (⟨400, some "Missing required fields", none,
      some "Need senderAddress, senderPrivateKey, recipientAddress, and amount",
      none, none, none⟩, [])
  else
    let r := sendSolTransaction env cfg sa spk ra am
    match r.result with
    | .ok sig => (⟨200, none, none, none, some true, some sig, none⟩, r.events)
    | .error e => (⟨500, some "Transaction failed", some e.message, none, none, none, none⟩, r.events)

/-- The system-program address: 32 '1' characters, decoding to 32 zero
bytes — a structurally valid Solana address usable as a test fixture. -/
def addrOnes : String := "11111111111111111111111111111111"

/-- A well-formed 64-byte secret key value (all zero bytes). -/
def spkOk : JsValue := .arr (List.replicate 64 0)

/-- An RPC environment in which every call succeeds: blockhash `BH`,
signature `SIG`, confirmation ok, balance 0 lamports. -/
def envAllOk : RpcEnv := ⟨.ok "BH", .ok "SIG", .ok (), .ok 0⟩

/-- An empty process environment (every variable unset). -/
def envEmpty : EnvMap := fun _ => none

/-- A request body that passes the missing-field check, with numeric amount
`q`. -/
def goodBody (q : ℚ) : SendBody :=
  ⟨some (.str "S1"), some spkOk, some (.str addrOnes), some (.num q)⟩

/-- An RPC environment where submission succeeds but confirmation fails with
a timeout carrying message `m`. -/
def envTimeout (m : String) : RpcEnv :=
  ⟨.ok "BH", .ok "SIG", .error (.confirmationTimeout m), .ok 0⟩

/-- An RPC environment where the node rejects the submission with message
`m`. -/
def envRejected (m : String) : RpcEnv :=
  ⟨.ok "BH", .error (.submissionRejected m), .ok (), .ok 0⟩

/-- Claim C1: the spec requires that no Unauthenticated request ever reaches
`getBalance` or `sendSolTransaction`; but the code's
`GET /api/check-balance/:publicKey` route is registered with no
authentication middleware, and a request presenting no token at all reaches
the `getBalance` RPC call and is answered 200 with the balance.  The code
contradicts the spec's stated intent (the spec itself flags the
unauthenticated parallel path as a defect to eliminate). -/
theorem c1_unauthenticated_request_reaches_getBalance :
    Ev.getBalance addrOnes ∈
      (handleApiCheckBalance envAllOk envEmpty ⟨none, addrOnes⟩).2 ∧
    (handleApiCheckBalance envAllOk envEmpty ⟨none, addrOnes⟩).1.status = 200 := by
  decide

/-- Claim C2 fails as stated: with amount `-1 ≤ 0` the transfer path does not
fail with InvalidAmount — it performs the recency-anchor fetch and even
completes successfully; only JavaScript falsiness (amount exactly 0 or NaN)
stops the request, and then as a missing-field 400, not InvalidAmount. -/
theorem c2_counterexample_negative_amount_submits :
    (-1 : ℚ) ≤ 0 ∧
    Ev.getLatestBlockhash ∈ (handleAuthSend envAllOk envEmpty (goodBody (-1))).2 ∧
    (handleAuthSend envAllOk envEmpty (goodBody (-1))).1.status = 200 := by
  decide

/-- Claim C2 (amended): only a JavaScript-falsy amount (zero or NaN) stops
the transfer path, and it does so as the 400 missing-field response with no
anchor fetch, signing or submission (empty event trace); negative and other
truthy non-positive amounts are not rejected. -/
theorem c2_amended_falsy_amount_no_op (env : RpcEnv) (cfg : EnvMap) (body : SendBody)
    (h : truthy (bodyGet body.amount) = false) :
    (handleAuthSend env cfg body).1.status = 400 ∧
    (handleAuthSend env cfg body).2 = [] := by
  simp [handleAuthSend, h]

theorem c2_amended_witness :
    (handleAuthSend envAllOk envEmpty (goodBody 0)).1.status = 400 ∧
    (handleAuthSend envAllOk envEmpty (goodBody 0)).2 = [] :=
  c2_amended_falsy_amount_no_op envAllOk envEmpty (goodBody 0) (by decide)

/-- Claim C3: when any of the four fields is absent from the request body,
the handler answers the structured 400 `Missing required fields` response
whose details line names the needed fields, and performs no RPC interaction
at all (the event trace is empty: no connection use, no anchor fetch, no
submission). -/
theorem c3_missing_field_400_no_rpc (env : RpcEnv) (cfg : EnvMap) (body : SendBody)
    (h : body.senderAddress = none ∨ body.senderPrivateKey = none ∨
         body.recipientAddress = none ∨ body.amount = none) :
    (handleAuthSend env cfg body).1 =
      ⟨400, some "Missing required fields", none,
       some "Need senderAddress, senderPrivateKey, recipientAddress, and amount",
       none, none, none⟩ ∧
    (handleAuthSend env cfg body).2 = [] := by
  rcases h with h | h | h | h <;> simp [handleAuthSend, bodyGet, h, truthy]

theorem c3_witness :
    (handleAuthSend envAllOk envEmpty
        ⟨some (.str "S1"), none, some (.str addrOnes), some (.num 1)⟩).1 =
      ⟨400, some "Missing required fields", none,
       some "Need senderAddress, senderPrivateKey, recipientAddress, and amount",
       none, none, none⟩ ∧
    (handleAuthSend envAllOk envEmpty
        ⟨some (.str "S1"), none, some (.str addrOnes), some (.num 1)⟩).2 = [] :=
  c3_missing_field_400_no_rpc envAllOk envEmpty
    ⟨some (.str "S1"), none, some (.str addrOnes), some (.num 1)⟩ (Or.inr (Or.inl rfl))

/-- Claim C4 fails as stated: a confirmation timeout and a node-level
submission rejection carrying the same upstream message produce identical
user-visible responses — both are wrapped into the one 500
`Transaction failed` shape, and the response carries no error kind at all. -/
theorem c4_counterexample_timeout_rejection_collapse :
    (envTimeout "boom").confirmOutcome = .error (.confirmationTimeout "boom") ∧
    (envRejected "boom").sendOutcome = .error (.submissionRejected "boom") ∧
    (handleAuthSend (envTimeout "boom") envEmpty (goodBody 1)).1 =
      (handleAuthSend (envRejected "boom") envEmpty (goodBody 1)).1 := by
  decide

/-- Claim C4 (amended): both failure modes surface as the same response
shape — status 500, error `Transaction failed`, message `Transaction
failed: ` followed by the upstream message — with no typed kind
distinguishing a confirmation timeout from a submission rejection; the two
are distinguishable only insofar as the upstream free-text messages happen to
differ. -/
theorem c4_amended_uniform_500 (m : String) :
    (handleAuthSend (envTimeout m) envEmpty (goodBody 1)).1 =
      ⟨500, some "Transaction failed", some ("Transaction failed: " ++ m),
       none, none, none, none⟩ ∧
    (handleAuthSend (envRejected m) envEmpty (goodBody 1)).1 =
      ⟨500, some "Transaction failed", some ("Transaction failed: " ++ m),
       none, none, none, none⟩ := by
  constructor <;> rfl

/-- Claim C5: whenever a `sendSolTransaction` invocation submits a
transaction, that same invocation's event trace is exactly
connection-construction, then the blockhash fetch, then the submission (with
at most a confirmation after it), and the submitted transaction's recency
anchor is precisely the blockhash this invocation fetched from the RPC
environment — fetched fresh, strictly before submission, never cached or
reused. -/
theorem c5_anchor_fetched_before_submit (env : RpcEnv) (cfg : EnvMap)
    (sa spk ra am : JsValue) (tx : Transaction)
    (h : Ev.sendTransaction tx ∈ (sendSolTransaction env cfg sa spk ra am).events) :
    ∃ bh rest,
      env.latestBlockhash = Except.ok bh ∧
      tx.recentBlockhash = some bh ∧
      (sendSolTransaction env cfg sa spk ra am).events =
        [Ev.newConnection (envOr cfg "SOLANA_RPC_URL" defaultRpcUrl) (some "confirmed"),
         Ev.getLatestBlockhash, Ev.sendTransaction tx] ++ rest := by
  unfold sendSolTransaction at h ⊢
  cases hk : Keypair.fromSecretKey (uint8ArrayFrom spk) with
  | error e => simp [hk] at h
  | ok kp =>
    simp only [hk] at h ⊢
    cases hp : newPublicKey ra with
    | error e => simp [hp] at h
    | ok pk =>
      simp only [hp] at h ⊢
      cases hb : env.latestBlockhash with
      | error f => simp [hb] at h
      | ok bh =>
        simp only [hb] at h ⊢
        cases hs : env.sendOutcome with
        | error f =>
          simp only [hs] at h ⊢
          simp at h
          subst h
          exact ⟨bh, [], rfl, rfl, rfl⟩
        | ok sig =>
          simp only [hs] at h ⊢
          cases hc : env.confirmOutcome with
          | error f =>
            simp only [hc] at h ⊢
            simp at h
            subst h
            exact ⟨bh, [Ev.confirmTransaction sig "confirmed"], rfl, rfl, rfl⟩
          | ok u =>
            simp only [hc] at h ⊢
            simp at h
            subst h
            exact ⟨bh, [Ev.confirmTransaction sig "confirmed"], rfl, rfl, rfl⟩

/-- The transaction built by the C5 witness invocation: zero-byte sender and
recipient keys, one SOL (in base units), anchored at `BH`. -/
def txW : Transaction :=
  ⟨List.replicate 32 0, List.replicate 32 0, jsMul (toNumber (.num 1)) 1000000000,
   some "BH", some (List.replicate 32 0)⟩

theorem c5_witness :
    ∃ bh rest,
      envAllOk.latestBlockhash = Except.ok bh ∧
      txW.recentBlockhash = some bh ∧
      (sendSolTransaction envAllOk envEmpty (.str "S1") spkOk (.str addrOnes) (.num 1)).events =
        [Ev.newConnection (envOr envEmpty "SOLANA_RPC_URL" defaultRpcUrl) (some "confirmed"),
         Ev.getLatestBlockhash, Ev.sendTransaction txW] ++ rest :=
  c5_anchor_fetched_before_submit envAllOk envEmpty (.str "S1") spkOk (.str addrOnes)
    (.num 1) txW (by
      have e : (sendSolTransaction envAllOk envEmpty (.str "S1") spkOk (.str addrOnes)
            (.num 1)).events =
          [Ev.newConnection defaultRpcUrl (some "confirmed"), Ev.getLatestBlockhash,
           Ev.sendTransaction txW, Ev.confirmTransaction "SIG" "confirmed"] := rfl
      rw [e]
      exact List.Mem.tail _ (List.Mem.tail _ (List.Mem.head _)))

/-- Claim C6: for a request that passes the field check with positive numeric
amount `q`, well-formed key material and recipient, and an RPC environment
where fetch, submission and confirmation all succeed, the handler answers 200
`{success: true, signature}` with the network's signature string, and the one
submitted transaction carries base-unit amount exactly `q * 10^9` (so amount
3/2 gives 1500000000, as the witness checks). -/
theorem c6_lamports_and_signature (env : RpcEnv) (cfg : EnvMap)
    (sa spk ra : JsValue) (q : ℚ) (kp : Keypair) (pk : List ℕ) (sig bh : String)
    (hq : 0 < q) (hsa : truthy sa = true) (hspk : truthy spk = true)
    (hra : truthy ra = true)
    (hk : Keypair.fromSecretKey (uint8ArrayFrom spk) = Except.ok kp)
    (hp : newPublicKey ra = Except.ok pk)
    (hb : env.latestBlockhash = Except.ok bh)
    (hs : env.sendOutcome = Except.ok sig)
    (hc : env.confirmOutcome = Except.ok ()) :
    handleAuthSend env cfg ⟨some sa, some spk, some ra, some (.num q)⟩ =
      (⟨200, none, none, none, some true, some sig, none⟩,
       [Ev.newConnection (envOr cfg "SOLANA_RPC_URL" defaultRpcUrl) (some "confirmed"),
        Ev.getLatestBlockhash,
        Ev.sendTransaction ⟨kp.publicKey, pk, some (q * 1000000000), some bh, some kp.publicKey⟩,
        Ev.confirmTransaction sig "confirmed"]) := by
  have hq0 : truthy (.num q) = true := by simp [truthy, hq.ne']
  simp [handleAuthSend, bodyGet, hq0, hsa, hspk, hra, sendSolTransaction,
    hk, hp, hb, hs, hc, jsMul, toNumber]

theorem c6_witness :
    (handleAuthSend envAllOk envEmpty
        ⟨some (.str "S1"), some spkOk, some (.str addrOnes), some (.num (3 / 2))⟩ =
      (⟨200, none, none, none, some true, some "SIG", none⟩,
       [Ev.newConnection defaultRpcUrl (some "confirmed"),
        Ev.getLatestBlockhash,
        Ev.sendTransaction ⟨List.replicate 32 0, List.replicate 32 0,
          some ((3 / 2 : ℚ) * 1000000000), some "BH", some (List.replicate 32 0)⟩,
        Ev.confirmTransaction "SIG" "confirmed"])) ∧
    (3 / 2 : ℚ) * 1000000000 = 1500000000 := by
  constructor
  · exact c6_lamports_and_signature envAllOk envEmpty (.str "S1") spkOk (.str addrOnes)
      (3 / 2) ⟨List.replicate 32 0⟩ (List.replicate 32 0) "SIG" "BH"
      (by norm_num) (by decide) (by decide) (by decide) (by decide) (by decide) rfl rfl rfl
  · norm_num

/-- Claim C7: when the supplied secret key bytes have the wrong length,
`Keypair.fromSecretKey` fails with the invalid-key-material error, and the
`sendSolTransaction` invocation ends with that failure (wrapped by the catch
block) having performed no events at all — in particular no network I/O: no
anchor fetch and no submission. -/
theorem c7_bad_key_fails_before_io (env : RpcEnv) (cfg : EnvMap)
    (sa spk ra am : JsValue) (h : (uint8ArrayFrom spk).length ≠ 64) :
    Keypair.fromSecretKey (uint8ArrayFrom spk) =
      Except.error ⟨.invalidKeyMaterial, "bad secret key size"⟩ ∧
    (sendSolTransaction env cfg sa spk ra am).result =
      Except.error ⟨.generic, "Transaction failed: bad secret key size"⟩ ∧
    (sendSolTransaction env cfg sa spk ra am).events = [] := by
  have hk : Keypair.fromSecretKey (uint8ArrayFrom spk) =
      Except.error ⟨.invalidKeyMaterial, "bad secret key size"⟩ := by
    simp [Keypair.fromSecretKey, h]
  refine ⟨hk, ?_, ?_⟩ <;> (unfold sendSolTransaction; rw [hk]) <;> rfl

theorem c7_witness :
    Keypair.fromSecretKey (uint8ArrayFrom (.arr [1, 2, 3])) =
      Except.error ⟨.invalidKeyMaterial, "bad secret key size"⟩ ∧
    (sendSolTransaction envAllOk envEmpty (.str "S1") (.arr [1, 2, 3])
        (.str addrOnes) (.num 1)).result =
      Except.error ⟨.generic, "Transaction failed: bad secret key size"⟩ ∧
    (sendSolTransaction envAllOk envEmpty (.str "S1") (.arr [1, 2, 3])
        (.str addrOnes) (.num 1)).events = [] :=
  c7_bad_key_fails_before_io envAllOk envEmpty (.str "S1") (.arr [1, 2, 3])
    (.str addrOnes) (.num 1) (by decide)

/-- Whether an event carries the `confirmed` commitment wherever a commitment
is carried at all (connection construction and confirmation). -/
def usesConfirmedCommitment : Ev → Bool
| .newConnection _ c => decide (c = some "confirmed")
| .confirmTransaction _ c => decide (c = "confirmed")
| _ => true

/-- An environment in which every variable is set to `finalized`, so any
recognized commitment option — whatever its name — would read `finalized`. -/
def envAllFinalized : EnvMap := fun _ => some "finalized"

/-- Claim C8 fails as stated: with every environment variable set to
`finalized`, the connection is still constructed with commitment `confirmed`
and confirmation still uses `confirmed`; the commitment level is hardcoded,
not environment-configurable (only the RPC URL is read from the environment —
which is why the connection URL here is the string `finalized`). -/
theorem c8_counterexample_commitment_hardcoded :
    Ev.newConnection "finalized" (some "confirmed") ∈
      (sendSolTransaction envAllOk envAllFinalized (.str "S1") spkOk
        (.str addrOnes) (.num 1)).events ∧
    Ev.confirmTransaction "SIG" "confirmed" ∈
      (sendSolTransaction envAllOk envAllFinalized (.str "S1") spkOk
        (.str addrOnes) (.num 1)).events ∧
    ("confirmed" : String) ≠ "finalized" := by
  decide

/-- Claim C8 (amended): the commitment level is the hardcoded `confirmed` for
both the connection and `confirmTransaction`, for every environment
configuration, RPC environment and input; no environment option overrides
it. -/
theorem c8_amended_commitment_always_confirmed (env : RpcEnv) (cfg : EnvMap)
    (sa spk ra am : JsValue) :
    (sendSolTransaction env cfg sa spk ra am).events.all usesConfirmedCommitment = true := by
  unfold sendSolTransaction
  cases Keypair.fromSecretKey (uint8ArrayFrom spk) <;>
    cases newPublicKey ra <;>
      cases env.latestBlockhash <;>
        cases env.sendOutcome <;>
          cases env.confirmOutcome <;>
            simp [usesConfirmedCommitment]

/-- Claim C10: two submit bodies that pass the missing-field check and agree
on everything except `senderAddress` produce identical responses and
identical event traces — hence the same built transaction (same source, fee
payer, recipient and base-unit amount): the code derives the transaction's
source and fee-payer identity solely from the public key reconstructed from
the secret key bytes and never reads `senderAddress`. -/
theorem c10_senderAddress_no_influence (env : RpcEnv) (cfg : EnvMap)
    (sa1 sa2 spk ra am : JsValue)
    (h1 : truthy sa1 = true) (h2 : truthy sa2 = true) :
    handleAuthSend env cfg ⟨some sa1, some spk, some ra, some am⟩ =
      handleAuthSend env cfg ⟨some sa2, some spk, some ra, some am⟩ := by
  have e : sendSolTransaction env cfg sa1 spk ra am =
      sendSolTransaction env cfg sa2 spk ra am := rfl
  simp [handleAuthSend, bodyGet, h1, h2, e]

theorem c10_witness :
    handleAuthSend envAllOk envEmpty
        ⟨some (.str "SenderA"), some spkOk, some (.str addrOnes), some (.num 1)⟩ =
      handleAuthSend envAllOk envEmpty
        ⟨some (.str "SenderB"), some spkOk, some (.str addrOnes), some (.num 1)⟩ :=
  c10_senderAddress_no_influence envAllOk envEmpty (.str "SenderA") (.str "SenderB")
    spkOk (.str addrOnes) (.num 1) (by decide) (by decide)

end FlashFirm
